import Mathlib

/-!
Shallow embedding of the core of the Norwegian company categorization system
(src/src/utils.py, src/src/config.py, src/src/categorizer.py,
src/src/company_matcher.py) and proofs about it.

Modelling conventions:
- Python dicts coming from the registry are modelled by the `Company` and
  `Naringskode` structures; a key that may be absent (or whose value may be a
  falsy empty dict) is an `Option` field, keys read with a default are plain
  fields read through `Option.getD`.
- Python floats are modelled by exact rationals; every constant the code
  manipulates (0.95, 0.9, 0.75, ...) and every product of them is exactly
  representable with at most three decimals, where binary floats and rationals
  agree after rounding to three decimals.
- Python strings are Lean strings; `str.lower` is modelled for the character
  ranges the system actually sees (ASCII plus the Norwegian letters used by
  the taxonomy).
-/

/-- Python `str.lower` on one character, covering ASCII and the Norwegian
letters that occur in this system. -/
def pyCharLower (c : Char) : Char :=
  if c = 'Æ' then 'æ' else if c = 'Ø' then 'ø' else if c = 'Å' then 'å'
  else c.toLower

/-- Python `str.lower`. -/
def pyLower (s : String) : String :=
  ⟨s.data.map pyCharLower⟩

/-- Helper for Python substring containment on character lists. -/
def subListIn (nd : List Char) : List Char → Bool
  | [] => nd.isEmpty
  | c :: t => nd.isPrefixOf (c :: t) || subListIn nd t

/-- Python `needle in haystack` on strings. -/
def pySubstrIn (needle haystack : String) : Bool :=
  subListIn needle.data haystack.data

/-- Python `s.startswith(p)`. -/
def pyStartsWith (s p : String) : Bool :=
  p.data.isPrefixOf s.data

/-- Core of Python `s.split(sep)` for a non-empty separator `s0 :: sr`,
accumulating the current chunk in reverse in `acc`.  The `fuel` argument is a
standard totalization device: every recursive call consumes at least one
character of the input, so `fuel = input length + 1` always suffices. -/
def pySplitCore (s0 : Char) (sr : List Char) : Nat → List Char → List Char → List (List Char)
  | 0, _, acc => [acc.reverse]
  | _ + 1, [], acc => [acc.reverse]
  | fuel + 1, c :: t, acc =>
    if (s0 :: sr).isPrefixOf (c :: t) then
      acc.reverse :: pySplitCore s0 sr fuel (t.drop sr.length) []
    else
      pySplitCore s0 sr fuel t (c :: acc)

/-- Python `s.split(sep)` for a non-empty separator. -/
def pySplit (s sep : String) : List String :=
  match sep.data with
  | [] => [s]
  | s0 :: sr => (pySplitCore s0 sr (s.data.length + 1) s.data []).map (fun l => ⟨l⟩)

/-- Python `s.rstrip(c)` for a single strip character. -/
def pyRstrip (s : String) (c : Char) : String :=
  ⟨(s.data.reverse.dropWhile (fun x => x == c)).reverse⟩

/-- Python `sep.join(parts)`. -/
def joinSep (sep : String) : List String → String
  | [] => ""
  | [x] => x
  | x :: y :: t => x ++ sep ++ joinSep sep (y :: t)

/-- Python `s.replace(old, new)` for a non-empty `old` (non-overlapping
occurrences, left to right). -/
def pyReplace (s old new : String) : String :=
  joinSep new (pySplit s old)

/-- Python `abs` on our rational model of floats. -/
def absQ (q : ℚ) : ℚ :=
  if q < 0 then -q else q

/-!
The standard rational operations of the library are `@[irreducible]`, so a
proof could never evaluate them on concrete inputs.  Float multiplication,
addition and subtraction are therefore modelled by the following wrappers
built from the reducible `mkRat`; the `qmul_eq`/`qadd_eq`/`qsub_eq` lemmas
prove them equal to the standard operations, and float literals are written
`mkRat n d`.
-/

/-- Multiplication on the rational model of Python floats. -/
def qmul (a b : ℚ) : ℚ :=
  mkRat (a.num * b.num) (a.den * b.den)

/-- Addition on the rational model of Python floats. -/
def qadd (a b : ℚ) : ℚ :=
  mkRat (a.num * (b.den : Int) + b.num * (a.den : Int)) (a.den * b.den)

/-- Subtraction on the rational model of Python floats. -/
def qsub (a b : ℚ) : ℚ :=
  qadd a (-b)

/-- `qmul` is rational multiplication. -/
theorem qmul_eq (a b : ℚ) : qmul a b = a * b := by
  conv_rhs => rw [← Rat.num_div_den a, ← Rat.num_div_den b]
  rw [div_mul_div_comm, qmul, Rat.mkRat_eq_div]
  push_cast
  ring

/-- `qadd` is rational addition. -/
theorem qadd_eq (a b : ℚ) : qadd a b = a + b := by
  conv_rhs => rw [← Rat.num_div_den a, ← Rat.num_div_den b]
  rw [div_add_div _ _ (by positivity : ((a.den : ℚ)) ≠ 0)
    (by positivity : ((b.den : ℚ)) ≠ 0), qadd, Rat.mkRat_eq_div]
  push_cast
  ring

/-- `qsub` is rational subtraction. -/
theorem qsub_eq (a b : ℚ) : qsub a b = a - b := by
  rw [qsub, qadd_eq, sub_eq_add_neg]

/-- The float constant 0.5 in its reducible form. -/
theorem mkRat_half : (mkRat 5 10 : ℚ) = 0.5 := by
  norm_num [Rat.mkRat_eq_div]

/-- Rounding to the nearest integer, halves up: `⌊q + 1/2⌋` computed
reducibly. -/
def roundQ (q : ℚ) : ℤ :=
  (2 * q.num + (q.den : Int)) / (2 * (q.den : Int))

/-- `roundQ` agrees with the library rounding function. -/
theorem roundQ_eq (q : ℚ) : roundQ q = round q := by
  rw [round_eq, roundQ]
  have hq : q + 1/2 =
      ((2 * q.num + (q.den : Int) : Int) : ℚ) / ((2 * q.den : ℕ) : ℚ) := by
    conv_lhs => rw [← Rat.num_div_den q]
    have hd : ((q.den : ℚ)) ≠ 0 := by positivity
    field_simp
    ring
  rw [hq, Rat.floor_intCast_div_natCast]
  push_cast
  ring_nf

/-- Python `round(x, 3)`: the system only ever rounds scores that are exact
multiples of 1/1000, on which any decimal rounding (Python rounds such floats
to themselves) is the identity, so the half-up tie rule of `roundQ` is never
exercised. -/
def round3 (q : ℚ) : ℚ :=
  mkRat (roundQ (qmul q (mkRat 1000 1))) 1000

/-- One `naeringskode` slot of a registry record: a non-empty dict with the
`kode` and `beskrivelse` keys read with default `""`. -/
structure Naringskode where
  kode : String
  beskrivelse : String
deriving DecidableEq, Repr

/-- A registry record (`RegistryRecord`): the fields of the BRREG company dict
that the core reads.  `Option` fields model keys that may be absent or hold a
falsy value; list fields default to `[]`; boolean fields default to `False`.
The `organisasjonsform` field holds the nested dict's `kode` value (absent
dict or absent `kode` both read as `""` in the source). -/
structure Company where
  navn : Option String := none
  organisasjonsnummer : Option String := none
  naeringskode1 : Option Naringskode := none
  naeringskode2 : Option Naringskode := none
  naeringskode3 : Option Naringskode := none
  aktivitet : List String := []
  vedtektsfestetFormaal : List String := []
  frivilligMvaRegistrertBeskrivelser : List String := []
  organisasjonsform : Option String := none
  konkurs : Bool := false
  underAvvikling : Bool := false
  underTvangsavviklingEllerTvangsopplosning : Bool := false
  nedleggelsesdato : Option String := none
deriving DecidableEq, Repr

/-- utils.has_naringskoder: some slot is present with a truthy (non-empty)
`kode`. -/
def has_naringskoder (company_data : Company) : Bool :=
  [company_data.naeringskode1, company_data.naeringskode2,
    company_data.naeringskode3].any
    (fun nk => match nk with
      | some v => v.kode != ""
      | none => false)

/-- utils.is_company_active. -/
def is_company_active (company_data : Company) : Bool :=
  !company_data.konkurs &&
  !company_data.underAvvikling &&
  !company_data.underTvangsavviklingEllerTvangsopplosning &&
  (company_data.nedleggelsesdato.getD ("") == "")

/-- utils.extract_naringskoder: the present (truthy) slots, in order 1–3. -/
def extract_naringskoder (company_data : Company) : List Naringskode :=
  [company_data.naeringskode1, company_data.naeringskode2,
    company_data.naeringskode3].filterMap id

/-- utils.format_naringskoder. -/
def format_naringskoder (naringskoder : List Naringskode) : List String :=
  naringskoder.map (fun nk => nk.kode ++ ": " ++ nk.beskrivelse)

/-- One entry of the taxonomy table (config.PRODUCT_CATEGORIES value). -/
structure CategoryInfo where
  codes : List String
  keywords : List String
  subsegments : List String
deriving DecidableEq, Repr

/-- config.PRODUCT_CATEGORIES, an ordered mapping (Python dicts iterate in
insertion order). -/
def PRODUCT_CATEGORIES : List (String × CategoryInfo) :=
  [ ("Fashion & Personal Accessories",
     { codes := ["14", "15.1", "32.1", "46.41", "46.42", "47.71", "47.72",
                 "47.77", "95.25"],
       keywords := ["klær", "clothing", "apparel", "fashion", "mote", "sko",
                    "shoes", "vesker", "bags", "smykker", "jewelry",
                    "klokker", "watches", "briller", "eyewear",
                    "accessories", "tilbehør"],
       subsegments := ["Apparel and Footwear", "Apparel", "Childrenswear",
                       "Footwear", "Sportswear", "Eyewear",
                       "Bags and Luggage", "Jewellery",
                       "Traditional and Connected Watches",
                       "Personal Accessories"] }),
    ("Beauty, Health & Well-Being",
     { codes := ["20.4", "21", "26.6", "32.5", "46.45", "46.46", "47.75",
                 "86", "87", "88"],
       keywords := ["skjønnhet", "beauty", "kosmetikk", "cosmetics", "helse",
                    "health", "medisin", "medical", "pharmaceutical",
                    "farmasøytisk", "helsevesen", "healthcare", "wellness",
                    "velvære"],
       subsegments := ["Beauty and Personal Care", "Consumer Health",
                       "Pharmaceuticals and Medical Equipment"] }),
    ("Consumer Tech & Appliances",
     { codes := ["26.1", "26.2", "26.3", "26.4", "26.8", "27", "28.2",
                 "46.43", "46.51", "47.5", "95.1", "95.2"],
       keywords := ["elektronikk", "electronics", "teknologi", "technology",
                    "datamaskiner", "computers", "telefoner", "phones", "TV",
                    "radio", "appliances", "hvitevarer", "kjøkken",
                    "kitchen"],
       subsegments := ["Consumer Electronics", "Consumer Appliances"] }),
    ("Food, Grocery & Pet",
     { codes := ["01", "02", "03", "10", "11", "12", "46.1", "46.2", "46.3",
                 "47.1", "47.2", "47.9"],
       keywords := ["mat", "food", "matvarer", "grocery", "landbruk",
                    "agriculture", "fiske", "fishing", "kjæledyr", "pet",
                    "dyrefôr", "tobakk", "tobacco", "drikke", "beverage"],
       subsegments := ["Staple Foods", "Pet Care", "Tobacco Products",
                       "Agriculture"] }),
    ("Home & Living",
     { codes := ["16", "31", "32.9", "43.3", "46.47", "46.49", "47.52",
                 "47.53", "47.54", "47.59"],
       keywords := ["møbler", "furniture", "hjem", "home", "bolig", "living",
                    "interiør", "interior", "hage", "garden", "renovering",
                    "renovation", "luksus", "luxury", "innredning",
                    "furnishing"],
       subsegments := ["Home Improvement", "Gardening",
                       "Homewares & Home Furnishings", "Household Goods",
                       "Luxury Goods"] }),
    ("Toys, Games & Leisure Goods",
     { codes := ["32.4", "32.3", "46.49", "47.65", "93.1"],
       keywords := ["leker", "toys", "spill", "games", "gaming", "sport",
                    "sports", "fritid", "leisure", "hobby"],
       subsegments := ["Toys and Games", "Sports Goods"] }),
    ("Industrial & Manufacturing Supplies",
     { codes := ["19", "20", "22", "23", "24", "25", "28", "29", "30", "33",
                 "46.6", "46.7"],
       keywords := ["industri", "industrial", "produksjon", "manufacturing",
                    "kjemisk", "chemical", "metall", "metal", "maskin",
                    "machinery", "utstyr", "equipment", "råvarer",
                    "materials"],
       subsegments := ["Chemical Products", "Metal Products",
                       "Non-metallic Mineral Products",
                       "Machinery and Equipment", "Transport Equipment",
                       "Paper and Printing",
                       "Building and Construction Materials",
                       "Professional Equipment"] }),
    ("Energy, Utilities & Recycling",
     { codes := ["35", "36", "37", "38", "39", "05", "06", "07", "08", "09"],
       keywords := ["energi", "energy", "elektrisitet", "electricity",
                    "olje", "oil", "gass", "gas", "vann", "water", "avfall",
                    "waste", "resirkulering", "recycling", "miljø",
                    "environmental"],
       subsegments := ["Energy", "Utilities and Recycling"] }),
    ("Services, Trade & Institutions",
     { codes := ["45", "46", "47", "49", "50", "51", "52", "53", "58", "59",
                 "60", "61", "62", "63", "64", "65", "66", "68", "69", "70",
                 "71", "72", "73", "74", "75", "77", "78", "79", "80", "81",
                 "82", "84", "85", "90", "91", "92", "93", "94", "95", "96",
                 "97", "98", "99"],
       keywords := ["handel", "trade", "service", "tjeneste", "bank",
                    "finans", "finance", "forsikring", "insurance",
                    "eiendom", "real estate", "rådgivning", "consulting",
                    "IT", "software", "utdanning", "education", "helse",
                    "health", "kultur", "culture", "transport", "logistics",
                    "hotell", "restaurant"],
       subsegments := ["Retail & Wholesale", "Information & Communications",
                       "Publishing & Printing", "Finance & Insurance",
                       "Real Estate", "Consulting & Business Services",
                       "Education", "Health & Social Services",
                       "Arts & Culture", "Transportation & Storage",
                       "Hotels & Restaurants", "Business Services",
                       "Construction & Real Estate"] }) ]

/-!
Embedding of `difflib.SequenceMatcher(None, a, b).ratio()` from the Python
standard library, which utils.similarity_score calls.  With `isjunk=None` the
junk set is empty, so the junk extension loops of `find_longest_match` never
fire and the non-junk extension loops test plain character equality; the
autojunk "popular element" rule (only active when `len(b) >= 200`) is kept.
Recursions that are not structural in Python (the while loops and the
matching-block queue) carry a fuel argument that provably suffices.
-/

/-- The ascending list of indices at which `c` occurs in `b` (one entry of
the `b2j` table of `SequenceMatcher.__chain_b`). -/
def charIndices (b : List Char) (c : Char) : List Nat :=
  (b.enum.filter (fun p => p.2 == c)).map (fun p => p.1)

/-- The autojunk rule of `SequenceMatcher.__chain_b`: an element is popular
when `len(b) >= 200` and it occurs more than `len(b) // 100 + 1` times. -/
def isPopular (b : List Char) (c : Char) : Bool :=
  decide (200 ≤ b.length) &&
  decide (b.length / 100 + 1 < (charIndices b c).length)

/-- `b2j.get(elt, [])`: indices of `elt` in `b`, with popular elements
removed. -/
def b2jGet (b : List Char) (c : Char) : List Nat :=
  if isPopular b c then [] else charIndices b c

/-- State of `find_longest_match`: `besti`, `bestj`, `bestsize`. -/
structure Flm where
  besti : Nat
  bestj : Nat
  bestsize : Nat
deriving DecidableEq, Repr

/-- Inner loop of `find_longest_match` over the `b` indices of `a[i]`:
`k = newj2len[j] = j2len.get(j-1, 0) + 1`, updating the running best on
strictly larger `k` (so the earliest maximum is kept). -/
def flmInner (i : Nat) (j2lenOld : List (Nat × Nat)) :
    List Nat → List (Nat × Nat) → Flm → List (Nat × Nat) × Flm
  | [], newj2len, best => (newj2len, best)
  | j :: js, newj2len, best =>
    let k := (if j = 0 then 0 else (j2lenOld.lookup (j - 1)).getD 0) + 1
    let best' := if best.bestsize < k then
        { besti := i + 1 - k, bestj := j + 1 - k, bestsize := k } else best
    flmInner i j2lenOld js ((j, k) :: newj2len) best'

/-- Outer loop of `find_longest_match` over `(i, a[i])` for `i` in
`range(alo, ahi)`.  Python filters `j < blo` with `continue` and stops at
`j >= bhi` with `break`; as the index lists are ascending this equals keeping
exactly the `j` with `blo <= j < bhi`. -/
def flmOuter (bget : Char → List Nat) (blo bhi : Nat) :
    List (Nat × Char) → List (Nat × Nat) → Flm → Flm
  | [], _, best => best
  | (i, ai) :: rest, j2len, best =>
    let js := (bget ai).filter (fun j => decide (blo ≤ j) && decide (j < bhi))
    let r := flmInner i j2len js [] best
    flmOuter bget blo bhi rest r.1 r.2

/-- Equality of two optional characters, false when either is absent. -/
def optCharEq (x y : Option Char) : Bool :=
  match x, y with
  | some c, some d => c == d
  | _, _ => false

/-- The backwards extension loop of `find_longest_match` (the junk set is
empty, so only the character-equality variant fires).  Each step moves
`besti` down by one, so `fuel = besti` suffices. -/
def extendBack (a b : List Char) (alo blo : Nat) : Nat → Flm → Flm
  | 0, st => st
  | fuel + 1, st =>
    if alo < st.besti && blo < st.bestj &&
        optCharEq (a.get? (st.besti - 1)) (b.get? (st.bestj - 1)) then
      extendBack a b alo blo fuel
        { besti := st.besti - 1, bestj := st.bestj - 1,
          bestsize := st.bestsize + 1 }
    else st

/-- The forwards extension loop of `find_longest_match`.  Each step raises
`bestsize` by one while `besti + bestsize < ahi`, so `fuel = ahi - (besti +
bestsize)` suffices. -/
def extendFwd (a b : List Char) (ahi bhi : Nat) : Nat → Flm → Flm
  | 0, st => st
  | fuel + 1, st =>
    if st.besti + st.bestsize < ahi && st.bestj + st.bestsize < bhi &&
        optCharEq (a.get? (st.besti + st.bestsize))
          (b.get? (st.bestj + st.bestsize)) then
      extendFwd a b ahi bhi fuel
        { besti := st.besti, bestj := st.bestj, bestsize := st.bestsize + 1 }
    else st

/-- `SequenceMatcher.find_longest_match(alo, ahi, blo, bhi)`. -/
def findLongestMatch (a b : List Char) (bget : Char → List Nat)
    (alo ahi blo bhi : Nat) : Flm :=
  let st1 := flmOuter bget blo bhi ((a.enum.drop alo).take (ahi - alo)) []
    { besti := alo, bestj := blo, bestsize := 0 }
  let st2 := extendBack a b alo blo st1.besti st1
  extendFwd a b ahi bhi (ahi - (st2.besti + st2.bestsize)) st2

/-- The total size of all matching blocks of `get_matching_blocks` on the
region `[alo, ahi) × [blo, bhi)`: the recursive queue split into the parts
left and right of the longest match.  Each recursive call strictly shrinks
`(ahi - alo) + (bhi - blo)`, so `fuel = len(a) + len(b) + 1` suffices. -/
def matchSum (a b : List Char) (bget : Char → List Nat) :
    Nat → Nat → Nat → Nat → Nat → Nat
  | 0, _, _, _, _ => 0
  | fuel + 1, alo, ahi, blo, bhi =>
    let m := findLongestMatch a b bget alo ahi blo bhi
    if m.bestsize = 0 then 0
    else
      m.bestsize +
      (if alo < m.besti && blo < m.bestj then
        matchSum a b bget fuel alo m.besti blo m.bestj else 0) +
      (if m.besti + m.bestsize < ahi && m.bestj + m.bestsize < bhi then
        matchSum a b bget fuel (m.besti + m.bestsize) ahi
          (m.bestj + m.bestsize) bhi else 0)

/-- `SequenceMatcher(None, a, b).ratio()`: `2 * M / T` where `M` is the total
matched size and `T` the total length, and `1.0` when both are empty. -/
def seqMatcherRatioOf (aS bS : String) : ℚ :=
  let a := aS.data
  let b := bS.data
  if a.length + b.length = 0 then 1
  else
    mkRat ((2 * matchSum a b (b2jGet b) (a.length + b.length + 1)
      0 a.length 0 b.length : Nat) : Int) (a.length + b.length)

/-- utils.similarity_score. -/
def similarity_score (str1 str2 : String) : ℚ :=
  seqMatcherRatioOf (pyLower str1) (pyLower str2)

/-- company_matcher.get_company_relevance_score: name similarity (weight
0.6), activity bonus 0.25, text bonus 0.10, organization-form bonus 0.05 or
penalty 0.02. -/
def get_company_relevance_score (company_data : Company)
    (search_name : String) : ℚ :=
  let company_name := company_data.navn.getD ("")
  let score : ℚ := qmul (similarity_score search_name company_name)
    (mkRat 6 10)
  let score := if is_company_active company_data then
    qadd score (mkRat 25 100) else score
  let score := if company_data.aktivitet ≠ [] ∨
      company_data.vedtektsfestetFormaal ≠ [] then
    qadd score (mkRat 10 100) else score
  let org_code := company_data.organisasjonsform.getD ("")
  if org_code ∈ (["AS", "ASA", "ENK", "DA", "BA", "SA"] : List String) then
    qadd score (mkRat 5 100)
  else if org_code ∈ (["NUF", "FIL"] : List String) then
    qsub score (mkRat 2 100)
  else score

/-- The scored candidate group of company_matcher.select_best_company_match,
sorted by descending score.  Python `list.sort(key=..., reverse=True)` is a
stable descending sort, which insertion sort with the non-strict descending
relation reproduces. -/
def scoredSorted (companies_to_score : List Company)
    (search_name : String) : List (ℚ × Company) :=
  List.insertionSort (fun x y => y.1 ≤ x.1)
    (companies_to_score.map
      (fun company => (get_company_relevance_score company search_name,
        company)))

/-- company_matcher.select_best_company_match.  `none` models Python `None`;
the inner `[] => none` branch of the match is unreachable because the scored
group is never empty. -/
def select_best_company_match (companies : List Company)
    (search_name : String) : Option Company :=
  if companies = [] then none
  else if companies.length = 1 then companies.head?
  else
    let companies_with_nk := companies.filter has_naringskoder
    if companies_with_nk.length = 1 then companies_with_nk.head?
    else
      let companies_to_score :=
        if companies_with_nk.length > 1 then companies_with_nk else companies
      let scored_companies := scoredSorted companies_to_score search_name
      match scored_companies with
      | [] => none
      | best :: rest =>
        let best_score := best.1
        let close_matches := (best :: rest).filter
          (fun sc => decide (absQ (qsub sc.1 best_score) ≤ mkRat 1 10))
        if close_matches.length > 1 then
          if companies_with_nk.length > 1 then
            match close_matches.filter (fun sc => is_company_active sc.2) with
            | [] => some best.2
            | am :: _ => some am.2
          else some best.2
        else some best.2

/-- The `search_metadata` dict built by company_matcher.fetch_company_by_name. -/
structure SearchMetadata where
  total_matches : Nat
  companies_with_naringskoder : Nat
  exact_name_match : Bool
  selected_company_has_naringskoder : Bool
deriving DecidableEq, Repr

/-- company_matcher.fetch_company_by_name, taking the candidate list that the
external api_client.fetch_companies_by_name call produced.  Note that on
success it returns the PAIR `(selected_company, search_metadata)`, not the
record alone. -/
def fetch_company_by_name (company_name : String)
    (companies : List Company) : Option (Company × SearchMetadata) :=
  if companies = [] then none
  else
    match select_best_company_match companies company_name with
    | none => none
    | some selected_company =>
      some (selected_company,
        { total_matches := companies.length,
          companies_with_naringskoder :=
            (companies.filter has_naringskoder).length,
          exact_name_match := companies.any
            (fun c => pyLower (c.navn.getD ("")) == pyLower company_name),
          selected_company_has_naringskoder :=
            has_naringskoder selected_company })

/-- One step of the running-best update used by both categorizers:
`if score > best_score` (strict, so the earliest maximum is kept). -/
def bestStep {α : Type} (f : α → ℚ) (acc : Option α × ℚ) (c : α) :
    Option α × ℚ :=
  if acc.2 < f c then (some c, f c) else acc

/-- The running-best fold `best_match = None; best_score = 0; ...` of the
categorizers, flattened over the enumerated candidate list. -/
def runBest {α : Type} (f : α → ℚ) (l : List α) : Option α × ℚ :=
  l.foldl (bestStep f) (none, 0)

/-- A scoring candidate of categorizer.categorize_by_naringskode: the
`best_match` payload `(category, code-or-tag, beskrivelse)` plus its score. -/
structure NkCand where
  category : String
  tag : String
  beskrivelse : String
  score : ℚ
deriving DecidableEq, Repr

/-- The code-prefix candidates one `(category, naringskode)` pair produces in
categorize_by_naringskode: one candidate with score `len(prefix)` for each
matching taxonomy code, in taxonomy order. -/
def codeCandsFor (category : String) (info : CategoryInfo)
    (nk : Naringskode) : List NkCand :=
  info.codes.filterMap (fun p =>
    if pyStartsWith nk.kode p then
      some { category := category, tag := nk.kode,
             beskrivelse := nk.beskrivelse,
             score := ((p.length : Nat) : ℚ) }
    else none)

/-- The description-keyword candidates one `(category, naringskode)` pair
produces in categorize_by_naringskode: score `len(keyword) * 0.5`, tag
`"<code> (keyword: <keyword>)"`. -/
def kwCandsFor (category : String) (info : CategoryInfo)
    (nk : Naringskode) : List NkCand :=
  info.keywords.filterMap (fun keyword =>
    if pySubstrIn (pyLower keyword) (pyLower nk.beskrivelse) then
      some { category := category,
             tag := nk.kode ++ " (keyword: " ++ keyword ++ ")",
             beskrivelse := nk.beskrivelse,
             score := qmul ((keyword.length : Nat) : ℚ) (mkRat 5 10) }
    else none)

/-- All scoring candidates of categorize_by_naringskode, in the exact
iteration order of the source loops (categories outer, codes inner, the
prefix loop before the keyword loop for each code). -/
def nkCandidates (naringskoder : List Naringskode) : List NkCand :=
  PRODUCT_CATEGORIES.flatMap (fun ci =>
    naringskoder.flatMap (fun nk =>
      codeCandsFor ci.1 ci.2 nk ++ kwCandsFor ci.1 ci.2 nk))

/-- categorizer.categorize_by_naringskode. -/
def categorize_by_naringskode (naringskoder : List Naringskode) :
    String × String × String :=
  match (runBest NkCand.score (nkCandidates naringskoder)).1 with
  | none => ("Uncategorized", "", "")
  | some c => (c.category, c.tag, c.beskrivelse)

/-- The lower-cased text blob of categorizer.categorize_by_keywords:
`navn` (default `""`), then each of `aktivitet`, `vedtektsfestetFormaal` and
`frivilligMvaRegistrertBeskrivelser` when non-empty, joined with spaces. -/
def combinedText (company_data : Company) : String :=
  joinSep (" ")
    ([pyLower (company_data.navn.getD (""))] ++
      (if company_data.aktivitet ≠ [] then
        company_data.aktivitet.map pyLower else []) ++
      (if company_data.vedtektsfestetFormaal ≠ [] then
        company_data.vedtektsfestetFormaal.map pyLower else []) ++
      (if company_data.frivilligMvaRegistrertBeskrivelser ≠ [] then
        company_data.frivilligMvaRegistrertBeskrivelser.map pyLower else []))

/-- The per-category score of categorize_by_keywords: the sum of the lengths
of the keywords found in the blob (a Python `int`, hence a natural
number). -/
def categoryKeywordScoreNat (info : CategoryInfo) (text : String) : Nat :=
  (info.keywords.map (fun keyword =>
    if pySubstrIn (pyLower keyword) text then keyword.length else 0)).sum

/-- The per-category score cast into the rational score domain of the
running-best fold. -/
def categoryKeywordScore (info : CategoryInfo) (text : String) : ℚ :=
  ((categoryKeywordScoreNat info text : Nat) : ℚ)

/-- The matched keywords of one category of categorize_by_keywords, in
taxonomy order. -/
def matchedKeywords (info : CategoryInfo) (text : String) : List String :=
  info.keywords.filter (fun keyword => pySubstrIn (pyLower keyword) text)

/-- categorizer.categorize_by_keywords. -/
def categorize_by_keywords (company_data : Company) :
    String × String × String :=
  match (runBest
      (fun ci => categoryKeywordScore ci.2 (combinedText company_data))
      PRODUCT_CATEGORIES).1 with
  | none => ("Uncategorized", "no_match", "")
  | some ci =>
    (ci.1, "keyword_match",
      "Keywords: " ++ joinSep (", ")
        (matchedKeywords ci.2 (combinedText company_data)))

/-- categorizer.get_subsegment_suggestion.  The text is lower-cased before
the checks, so literal words containing capitals (`"IT"`) can never match —
kept exactly as in the source. -/
def get_subsegment_suggestion (category : String)
    (company_data : Company) : String :=
  match PRODUCT_CATEGORIES.lookup category with
  | none => ""
  | some info =>
    if info.subsegments = [] then ""
    else
      let text := pyLower (company_data.navn.getD ("") ++ " " ++
        joinSep (" ") company_data.aktivitet)
      if category = "Fashion & Personal Accessories" then
        if ["barn", "child", "kid"].any (fun w => pySubstrIn w text) then
          "Childrenswear"
        else if ["sko", "shoe", "footwear"].any (fun w => pySubstrIn w text) then
          "Footwear"
        else if ["sport"].any (fun w => pySubstrIn w text) then
          "Sportswear"
        else if ["brille", "eyewear", "glasses"].any (fun w => pySubstrIn w text) then
          "Eyewear"
        else if ["veske", "bag", "luggage"].any (fun w => pySubstrIn w text) then
          "Bags and Luggage"
        else if ["smykke", "jewelry", "jewellery"].any (fun w => pySubstrIn w text) then
          "Jewellery"
        else if ["klokke", "watch"].any (fun w => pySubstrIn w text) then
          "Traditional and Connected Watches"
        else "Apparel"
      else if category = "Services, Trade & Institutions" then
        if ["bank", "finans", "finance"].any (fun w => pySubstrIn w text) then
          "Finance & Insurance"
        else if ["handel", "retail", "butikk"].any (fun w => pySubstrIn w text) then
          "Retail & Wholesale"
        else if ["IT", "software", "data", "tech"].any (fun w => pySubstrIn w text) then
          "Information & Communications"
        else if ["bygg", "construction", "eiendom"].any (fun w => pySubstrIn w text) then
          "Construction & Real Estate"
        else if ["hotell", "restaurant"].any (fun w => pySubstrIn w text) then
          "Hotels & Restaurants"
        else if ["skole", "utdanning", "education"].any (fun w => pySubstrIn w text) then
          "Education"
        else if ["transport", "logistikk"].any (fun w => pySubstrIn w text) then
          "Transport & Storage"
        else "Business Services"
      else info.subsegments.headD ("")

/-- A Python value appearing in a CategorizationResult dict. -/
inductive PyVal where
  | s (v : String)
  | i (v : Int)
  | q (v : ℚ)
  | ls (v : List String)
deriving DecidableEq, Repr

/-- A CategorizationResult: a Python dict literal, keys in insertion order. -/
abbrev PyDict := List (String × PyVal)

/-- Dict lookup (`d[k]` / `d.get(k)`). -/
def pyGet (d : PyDict) (k : String) : Option PyVal :=
  d.lookup k

/-- The not-found result dict of categorizer.categorize_company (lines
158–178), with its exact keys in source order: it carries neither a
`category_id` nor an `all_naringskoder` key. -/
def notFoundResult (company_name : String) : PyDict :=
  [ ("company_name", PyVal.s company_name),
    ("category", PyVal.s ("Not Found")),
    ("subsegment", PyVal.s ("")),
    ("method", PyVal.s ("api_error")),
    ("code", PyVal.s ("")),
    ("description", PyVal.s ("Company not found in registry")),
    ("org_number", PyVal.s ("")),
    ("activities", PyVal.ls []),
    ("statutory_purposes", PyVal.ls []),
    ("confidence", PyVal.s ("Low")),
    ("selected_company", PyVal.s ("")),
    ("categorized_by_naringskode", PyVal.i 0),
    ("num_naringskoder", PyVal.i 0),
    ("exact_code_match", PyVal.i 0),
    ("keyword_match", PyVal.i 0),
    ("confidence_score", PyVal.q 0),
    ("primary_naringskode", PyVal.s ("")),
    ("matching_keywords", PyVal.s ("")) ]

/-- The categorization metrics computed by lines 184–244 of
categorizer.categorize_company (before the name-mismatch adjustment). -/
structure CatOutcome where
  category : String
  code : String
  description : String
  method : String
  confidence : String
  categorized_by_naringskode : Int
  exact_code_match : Int
  keyword_match : Int
  confidence_score : ℚ
  primary_naringskode : String
  matching_keywords : String
deriving DecidableEq, Repr

/-- Lines 184–244 of categorize_company: try categorize_by_naringskode first,
distinguishing exact code matches from keyword-in-description matches by the
`"(keyword:"` marker in the returned tag, else fall back to
categorize_by_keywords (score 0.6/0.2 when the record had codes, 0.5/0.1 when
it had none). -/
def catOutcome (company_data : Company) : CatOutcome :=
  let naringskoder := extract_naringskoder company_data
  if naringskoder ≠ [] then
    let nkr := categorize_by_naringskode naringskoder
    if nkr.1 ≠ "Uncategorized" then
      let code := nkr.2.1
      let primary_naringskode :=
        if code ≠ "" then (pySplit code (" ")).headD ("") else ""
      if pySubstrIn ("(keyword:") code then
        { category := nkr.1, code := code, description := nkr.2.2,
          method := "naringskode", confidence := "High",
          categorized_by_naringskode := 1, exact_code_match := 0,
          keyword_match := 1, confidence_score := mkRat 75 100,
          primary_naringskode := primary_naringskode,
          matching_keywords :=
            if pySubstrIn ("keyword:") code then
              pyRstrip ((pySplit code ("keyword: ")).getD 1 ("")) ')'
            else "" }
      else
        { category := nkr.1, code := code, description := nkr.2.2,
          method := "naringskode", confidence := "High",
          categorized_by_naringskode := 1, exact_code_match := 1,
          keyword_match := 0, confidence_score := mkRat 95 100,
          primary_naringskode := primary_naringskode,
          matching_keywords := "" }
    else
      let kr := categorize_by_keywords company_data
      { category := kr.1, code := kr.2.1, description := kr.2.2,
        method := "keywords",
        confidence := if kr.2.1 ≠ "no_match" then "Medium" else "Low",
        categorized_by_naringskode := 0, exact_code_match := 0,
        keyword_match := if kr.2.1 ≠ "no_match" then 1 else 0,
        confidence_score := if kr.2.1 ≠ "no_match" then mkRat 6 10 else mkRat 2 10,
        primary_naringskode := "",
        matching_keywords :=
          if pySubstrIn ("Keywords:") kr.2.2 then
            pyReplace kr.2.2 ("Keywords: ") ("")
          else "" }
  else
    let kr := categorize_by_keywords company_data
    { category := kr.1, code := kr.2.1, description := kr.2.2,
      method := "keywords",
      confidence := if kr.2.1 ≠ "no_match" then "Medium" else "Low",
      categorized_by_naringskode := 0, exact_code_match := 0,
      keyword_match := if kr.2.1 ≠ "no_match" then 1 else 0,
      confidence_score := if kr.2.1 ≠ "no_match" then mkRat 5 10 else mkRat 1 10,
      primary_naringskode := "",
      matching_keywords :=
        if pySubstrIn ("Keywords:") kr.2.2 then
          pyReplace kr.2.2 ("Keywords: ") ("")
        else "" }

/-- Lines 246–249 of categorize_company: multiply the score by 0.9 when the
selected record name differs case-insensitively from the query name. -/
def adjustedScore (company_name : String) (company_data : Company) : ℚ :=
  if pyLower (company_data.navn.getD ("Unknown")) ≠ pyLower company_name then
    qmul (catOutcome company_data).confidence_score (mkRat 9 10)
  else
    (catOutcome company_data).confidence_score

/-- Lines 180–275 of categorize_company applied to a selected company
record: the body of the found branch exactly as written (which reads
`company_data` as the record dict).  Keys in source order; no `category_id`
key. -/
def categorizeRecordPath (company_name : String)
    (company_data : Company) : PyDict :=
  let selected_company_name := company_data.navn.getD ("Unknown")
  let naringskoder := extract_naringskoder company_data
  let o := catOutcome company_data
  [ ("company_name", PyVal.s company_name),
    ("category", PyVal.s o.category),
    ("subsegment", PyVal.s (get_subsegment_suggestion o.category company_data)),
    ("method", PyVal.s o.method),
    ("code", PyVal.s o.code),
    ("description", PyVal.s o.description),
    ("org_number", PyVal.s (company_data.organisasjonsnummer.getD (""))),
    ("activities", PyVal.ls company_data.aktivitet),
    ("statutory_purposes", PyVal.ls company_data.vedtektsfestetFormaal),
    ("all_naringskoder", PyVal.ls (format_naringskoder naringskoder)),
    ("confidence", PyVal.s o.confidence),
    ("selected_company", PyVal.s selected_company_name),
    ("categorized_by_naringskode", PyVal.i o.categorized_by_naringskode),
    ("num_naringskoder", PyVal.i (naringskoder.length : Int)),
    ("exact_code_match", PyVal.i o.exact_code_match),
    ("keyword_match", PyVal.i o.keyword_match),
    ("confidence_score", PyVal.q (round3 (adjustedScore company_name company_data))),
    ("primary_naringskode", PyVal.s o.primary_naringskode),
    ("matching_keywords", PyVal.s o.matching_keywords) ]

/-- The Python exception that escapes categorize_company when a candidate is
selected: `fetch_company_by_name` returns the tuple `(selected_company,
search_metadata)`, a tuple is truthy, and line 180 then calls
`company_data.get("navn", "Unknown")` on it — tuples have no `get`. -/
inductive PyException where
  | attributeError (msg : String)
deriving DecidableEq, Repr

/-- categorizer.categorize_company, taking the candidate list produced by the
external api_client call.  When no candidate resolves it returns the
not-found dict; when one does, the found branch raises `AttributeError`
because `company_data` is the `(record, metadata)` tuple, not the record. -/
def categorize_company (company_name : String) (companies : List Company) :
    Except PyException PyDict :=
  match fetch_company_by_name company_name companies with
  | none => Except.ok (notFoundResult company_name)
  | some _ =>
    Except.error (PyException.attributeError
      "tuple object has no attribute get")

/-- If no element beats the accumulated best score, the running-best fold
leaves the accumulator unchanged. -/
theorem foldl_bestStep_const {α : Type} (f : α → ℚ) (l : List α)
    (acc : Option α × ℚ) (h : ∀ c ∈ l, f c ≤ acc.2) :
    l.foldl (bestStep f) acc = acc := by
  induction l generalizing acc with
  | nil => rfl
  | cons e t ih =>
    have he : f e ≤ acc.2 := h e (by simp)
    have hstep : bestStep f acc e = acc := by
      unfold bestStep
      rw [if_neg (not_lt.mpr he)]
    rw [List.foldl_cons, hstep]
    exact ih acc (fun c hc => h c (by simp [hc]))

/-- The running-best fold with its strict-improvement update returns the
LEFTMOST element attaining the maximal score, provided that score beats the
initial accumulator. -/
theorem foldl_bestStep_firstMax {α : Type} (f : α → ℚ) :
    ∀ (l : List α) (acc : Option α × ℚ) (i : Nat) (c : α),
    l.get? i = some c → acc.2 < f c →
    (∀ d ∈ l, f d ≤ f c) →
    (∀ j, j < i → ∀ d, l.get? j = some d → f d < f c) →
    l.foldl (bestStep f) acc = (some c, f c) := by
  intro l
  induction l with
  | nil =>
    intro acc i c hget
    simp at hget
  | cons e t ih =>
    intro acc i c hget hacc hmax hfirst
    cases i with
    | zero =>
      rw [List.get?_cons_zero, Option.some.injEq] at hget
      subst hget
      rw [List.foldl_cons]
      have hstep : bestStep f acc e = (some e, f e) := by
        unfold bestStep
        rw [if_pos hacc]
      rw [hstep]
      exact foldl_bestStep_const f t (some e, f e)
        (fun d hd => hmax d (List.mem_cons_of_mem e hd))
    | succ j =>
      have hhead : f e < f c :=
        hfirst 0 (Nat.succ_pos j) e (List.get?_cons_zero)
      rw [List.foldl_cons]
      refine ih (bestStep f acc e) j c ?_ ?_ ?_ ?_
      · simpa using hget
      · unfold bestStep
        split
        · exact hhead
        · exact hacc
      · exact fun d hd => hmax d (List.mem_cons_of_mem e hd)
      · exact fun j' hj' d hd =>
          hfirst (j' + 1) (Nat.succ_lt_succ hj') d (by simpa using hd)

/-- `runBest` returns the leftmost maximum when its score is positive. -/
theorem runBest_fst_firstMax {α : Type} (f : α → ℚ) (l : List α) (i : Nat)
    (c : α) (hget : l.get? i = some c) (hpos : 0 < f c)
    (hmax : ∀ d ∈ l, f d ≤ f c)
    (hfirst : ∀ j, j < i → ∀ d, l.get? j = some d → f d < f c) :
    (runBest f l).1 = some c := by
  unfold runBest
  rw [foldl_bestStep_firstMax f l (none, 0) i c hget hpos hmax hfirst]

/-- `runBest` returns no element when no score is positive. -/
theorem runBest_fst_none {α : Type} (f : α → ℚ) (l : List α)
    (h : ∀ c ∈ l, f c ≤ 0) : (runBest f l).1 = none := by
  unfold runBest
  rw [foldl_bestStep_const f l (none, 0) h]

/-- C1: the claim is FALSE on the code as written, and the code contradicts
its own surrounding usage (a code bug): `fetch_company_by_name` returns the
truthy tuple `(selected_company, search_metadata)` whenever a candidate is
selected, and line 180 of `categorize_company` then calls `.get` on that
tuple, raising `AttributeError` — so `categorize_company` raises for every
non-empty candidate list instead of returning a CategorizationResult.  This
theorem evaluates the pipeline at a concrete failing input: one candidate is
found and selected, and the call errors. -/
theorem C1_categorize_company_raises_on_selected_candidate :
    categorize_company ("Acme AS") [{ navn := some ("Acme AS") }] =
      Except.error (PyException.attributeError
        ("tuple object has no attribute get")) ∧
    (fetch_company_by_name ("Acme AS")
      [{ navn := some ("Acme AS") }]).isSome = true := by
  exact ⟨rfl, rfl⟩

/-- C2 is refuted at a concrete input: the not-found result that
`categorize_company` returns for an empty candidate list has no
`category_id` key and no `all_naringskoder` key, although the claim says
every result contains both. -/
theorem C2_counterexample :
    categorize_company ("Acme AS") [] =
      Except.ok (notFoundResult ("Acme AS")) ∧
    pyGet (notFoundResult ("Acme AS")) ("category_id") = none ∧
    pyGet (notFoundResult ("Acme AS")) ("all_naringskoder") = none := by
  exact ⟨rfl, rfl, rfl⟩

/-- C2 (amended): both result dicts of categorize_company carry exactly the
fields of the data model EXCEPT `category_id` (absent from both), and
`all_naringskoder` is present only in the categorized result, not in the
not-found result. -/
theorem C2_result_fields (company_name : String) (company_data : Company) :
    (notFoundResult company_name).map Prod.fst =
      ["company_name", "category", "subsegment", "method", "code",
       "description", "org_number", "activities", "statutory_purposes",
       "confidence", "selected_company", "categorized_by_naringskode",
       "num_naringskoder", "exact_code_match", "keyword_match",
       "confidence_score", "primary_naringskode", "matching_keywords"] ∧
    (categorizeRecordPath company_name company_data).map Prod.fst =
      ["company_name", "category", "subsegment", "method", "code",
       "description", "org_number", "activities", "statutory_purposes",
       "all_naringskoder", "confidence", "selected_company",
       "categorized_by_naringskode", "num_naringskoder", "exact_code_match",
       "keyword_match", "confidence_score", "primary_naringskode",
       "matching_keywords"] ∧
    pyGet (notFoundResult company_name) ("category_id") = none ∧
    pyGet (categorizeRecordPath company_name company_data)
      ("category_id") = none ∧
    pyGet (notFoundResult company_name) ("all_naringskoder") = none := by
  exact ⟨rfl, rfl, rfl, rfl, rfl⟩

/-- C3: with an empty candidate list, categorize_company returns (does not
raise) the not-found result: category "Not Found", method "api_error",
confidence "Low", confidence_score 0.0, and all four numeric flags 0. -/
theorem C3_empty_candidate_list (company_name : String) :
    categorize_company company_name [] =
      Except.ok (notFoundResult company_name) ∧
    pyGet (notFoundResult company_name) ("category") =
      some (PyVal.s ("Not Found")) ∧
    pyGet (notFoundResult company_name) ("method") =
      some (PyVal.s ("api_error")) ∧
    pyGet (notFoundResult company_name) ("confidence") =
      some (PyVal.s ("Low")) ∧
    pyGet (notFoundResult company_name) ("confidence_score") =
      some (PyVal.q 0) ∧
    pyGet (notFoundResult company_name) ("categorized_by_naringskode") =
      some (PyVal.i 0) ∧
    pyGet (notFoundResult company_name) ("num_naringskoder") =
      some (PyVal.i 0) ∧
    pyGet (notFoundResult company_name) ("exact_code_match") =
      some (PyVal.i 0) ∧
    pyGet (notFoundResult company_name) ("keyword_match") =
      some (PyVal.i 0) := by
  exact ⟨rfl, rfl, rfl, rfl, rfl, rfl, rfl, rfl, rfl⟩

/-- C4: whenever at least two candidates are fetched and exactly one of them
has industry codes, the selector returns that candidate — its relevance and
name-similarity scores are never even computed. -/
theorem C4_priority_rule (companies : List Company) (search_name : String)
    (c : Company) (hlen : 2 ≤ companies.length)
    (hfilter : companies.filter has_naringskoder = [c]) :
    select_best_company_match companies search_name = some c := by
  unfold select_best_company_match
  have hne : ¬ companies = [] := by
    intro h
    subst h
    simp at hlen
  rw [if_neg hne, if_neg (by omega : ¬ companies.length = 1)]
  simp [hfilter]

/-- The candidate list of the C4 witness: the single coded candidate has the
lowest name similarity to the search name. -/
def c4Companies : List Company :=
  [ { navn := some ("zzz") },
    { navn := some ("qqqq"), naeringskode1 := some ⟨"13.1", ""⟩ },
    { navn := some ("zzy") } ]

/-- Witness for C4 at a concrete input: the singleton filter hypothesis and
the length hypothesis hold, and the selector picks the coded candidate even
though its name shares nothing with the search name. -/
theorem C4_priority_rule_witness :
    2 ≤ c4Companies.length ∧
    c4Companies.filter has_naringskoder =
      [{ navn := some ("qqqq"), naeringskode1 := some ⟨"13.1", ""⟩ }] ∧
    select_best_company_match c4Companies ("zzz") =
      some { navn := some ("qqqq"), naeringskode1 := some ⟨"13.1", ""⟩ } := by
  refine ⟨by decide, by decide, ?_⟩
  exact C4_priority_rule c4Companies ("zzz")
    { navn := some ("qqqq"), naeringskode1 := some ⟨"13.1", ""⟩ }
    (by decide) (by decide)

/-- C6: categorize_by_naringskode scores every (category, code) pair by
matching-prefix length, and independently by half the length of any category
keyword found in the code description; the result is determined by the
single highest-scoring candidate (leftmost on ties, so a longer matching
prefix beats a shorter one), keyword wins are tagged
`"<code> (keyword: <kw>)"`, plain code wins are tagged with the code, and
when no candidate scores above 0 the result is `("Uncategorized", "", "")`. -/
theorem C6_categorize_by_naringskode (naringskoder : List Naringskode) :
    (∀ ci ∈ PRODUCT_CATEGORIES, ∀ nk ∈ naringskoder, ∀ p ∈ ci.2.codes,
      pyStartsWith nk.kode p = true →
      ({ category := ci.1, tag := nk.kode, beskrivelse := nk.beskrivelse,
         score := ((p.length : Nat) : ℚ) } : NkCand) ∈
        nkCandidates naringskoder) ∧
    (∀ ci ∈ PRODUCT_CATEGORIES, ∀ nk ∈ naringskoder, ∀ kw ∈ ci.2.keywords,
      pySubstrIn (pyLower kw) (pyLower nk.beskrivelse) = true →
      ({ category := ci.1, tag := nk.kode ++ " (keyword: " ++ kw ++ ")",
         beskrivelse := nk.beskrivelse,
         score := ((kw.length : Nat) : ℚ) * 0.5 } : NkCand) ∈
        nkCandidates naringskoder) ∧
    (∀ c ∈ nkCandidates naringskoder,
      ∃ ci ∈ PRODUCT_CATEGORIES, ∃ nk ∈ naringskoder,
        (∃ p ∈ ci.2.codes, pyStartsWith nk.kode p = true ∧
          c = { category := ci.1, tag := nk.kode,
                beskrivelse := nk.beskrivelse,
                score := ((p.length : Nat) : ℚ) }) ∨
        (∃ kw ∈ ci.2.keywords,
          pySubstrIn (pyLower kw) (pyLower nk.beskrivelse) = true ∧
          c = { category := ci.1,
                tag := nk.kode ++ " (keyword: " ++ kw ++ ")",
                beskrivelse := nk.beskrivelse,
                score := ((kw.length : Nat) : ℚ) * 0.5 })) ∧
    (∀ i c, (nkCandidates naringskoder).get? i = some c → 0 < c.score →
      (∀ d ∈ nkCandidates naringskoder, d.score ≤ c.score) →
      (∀ j, j < i → ∀ d, (nkCandidates naringskoder).get? j = some d →
        d.score < c.score) →
      categorize_by_naringskode naringskoder =
        (c.category, c.tag, c.beskrivelse)) ∧
    ((∀ c ∈ nkCandidates naringskoder, c.score ≤ 0) →
      categorize_by_naringskode naringskoder =
        ("Uncategorized", "", "")) := by
  refine ⟨?_, ?_, ?_, ?_, ?_⟩
  · intro ci hci nk hnk p hp hsw
    simp only [nkCandidates, List.mem_flatMap]
    refine ⟨ci, hci, nk, hnk, List.mem_append_left _ ?_⟩
    simp only [codeCandsFor, List.mem_filterMap]
    exact ⟨p, hp, by simp [hsw]⟩
  · intro ci hci nk hnk kw hkw hsub
    simp only [nkCandidates, List.mem_flatMap]
    refine ⟨ci, hci, nk, hnk, List.mem_append_right _ ?_⟩
    simp only [kwCandsFor, List.mem_filterMap]
    refine ⟨kw, hkw, ?_⟩
    rw [if_pos hsub]
    simp [qmul_eq, mkRat_half]
  · intro c hc
    simp only [nkCandidates, List.mem_flatMap, List.mem_append] at hc
    obtain ⟨ci, hci, nk, hnk, hc⟩ := hc
    refine ⟨ci, hci, nk, hnk, ?_⟩
    cases hc with
    | inl h =>
      left
      simp only [codeCandsFor, List.mem_filterMap] at h
      obtain ⟨p, hp, hf⟩ := h
      by_cases hsw : pyStartsWith nk.kode p = true
      · rw [if_pos hsw] at hf
        exact ⟨p, hp, hsw, (Option.some.injEq _ _).mp hf.symm ▸ rfl⟩
      · rw [if_neg hsw] at hf
        exact absurd hf (by simp)
    | inr h =>
      right
      simp only [kwCandsFor, List.mem_filterMap] at h
      obtain ⟨kw, hkw, hf⟩ := h
      by_cases hsub : pySubstrIn (pyLower kw) (pyLower nk.beskrivelse) = true
      · rw [if_pos hsub] at hf
        have hc := (Option.some.injEq _ _).mp hf
        refine ⟨kw, hkw, hsub, ?_⟩
        rw [← hc]
        simp [qmul_eq, mkRat_half]
      · rw [if_neg hsub] at hf
        exact absurd hf (by simp)
  · intro i c hget hpos hmax hfirst
    unfold categorize_by_naringskode
    rw [runBest_fst_firstMax NkCand.score (nkCandidates naringskoder) i c
      hget hpos hmax hfirst]
  · intro hall
    unfold categorize_by_naringskode
    rw [runBest_fst_none NkCand.score (nkCandidates naringskoder) hall]

/-- Witness for C6 at the concrete example of the claim: a record carrying
codes "46" and "46.41" produces the candidates
[(Fashion, "46.41", score 5), (Services, "46", score 2),
(Services, "46.41", score 2)]; the longer prefix "46.41" has the strictly
highest score, so its category and tag win over the shorter "46". -/
theorem C6_categorize_by_naringskode_witness :
    (nkCandidates [⟨"46", ""⟩, ⟨"46.41", ""⟩]).get? 0 =
      some { category := "Fashion & Personal Accessories", tag := "46.41",
             beskrivelse := "", score := 5 } ∧
    (0 : ℚ) < 5 ∧
    categorize_by_naringskode [⟨"46", ""⟩, ⟨"46.41", ""⟩] =
      ("Fashion & Personal Accessories", "46.41", "") := by
  refine ⟨by decide, by decide, ?_⟩
  exact (C6_categorize_by_naringskode [⟨"46", ""⟩, ⟨"46.41", ""⟩]).2.2.2.1 0
    { category := "Fashion & Personal Accessories", tag := "46.41",
      beskrivelse := "", score := 5 }
    (by decide) (by decide) (by decide)
    (fun j hj d _ => absurd hj (Nat.not_lt_zero j))

/-- C8: the keyword-fallback categorizer builds one lower-cased blob from
the record name, activities, statutory purposes and VAT descriptions, scores
each category by the summed lengths of its keywords found in the blob, and
returns the highest-scoring category (leftmost on ties, i.e. taxonomy
iteration order), or `("Uncategorized", "no_match", "")` when no category
scores above 0. -/
theorem C8_categorize_by_keywords (company_data : Company) :
    combinedText company_data = joinSep (" ")
      ([pyLower (company_data.navn.getD (""))] ++
        company_data.aktivitet.map pyLower ++
        company_data.vedtektsfestetFormaal.map pyLower ++
        company_data.frivilligMvaRegistrertBeskrivelser.map pyLower) ∧
    (∀ ci ∈ PRODUCT_CATEGORIES,
      categoryKeywordScore ci.2 (combinedText company_data) =
        ((((ci.2.keywords.map (fun kw =>
          if pySubstrIn (pyLower kw) (combinedText company_data) then
            kw.length
          else 0)).sum : Nat)) : ℚ)) ∧
    (∀ i ci, PRODUCT_CATEGORIES.get? i = some ci →
      0 < categoryKeywordScore ci.2 (combinedText company_data) →
      (∀ cj ∈ PRODUCT_CATEGORIES,
        categoryKeywordScore cj.2 (combinedText company_data) ≤
          categoryKeywordScore ci.2 (combinedText company_data)) →
      (∀ j, j < i → ∀ cj, PRODUCT_CATEGORIES.get? j = some cj →
        categoryKeywordScore cj.2 (combinedText company_data) <
          categoryKeywordScore ci.2 (combinedText company_data)) →
      categorize_by_keywords company_data =
        (ci.1, "keyword_match", "Keywords: " ++
          joinSep (", ") (matchedKeywords ci.2 (combinedText company_data)))) ∧
    ((∀ ci ∈ PRODUCT_CATEGORIES,
        categoryKeywordScore ci.2 (combinedText company_data) ≤ 0) →
      categorize_by_keywords company_data =
        ("Uncategorized", "no_match", "")) := by
  refine ⟨?_, ?_, ?_, ?_⟩
  · have h : ∀ (l : List String),
        (if l ≠ [] then l.map pyLower else []) = l.map pyLower := by
      intro l
      by_cases hl : l = [] <;> simp [hl]
    simp only [combinedText, h, List.append_assoc]
  · intro ci _
    rfl
  · intro i ci hget hpos hmax hfirst
    unfold categorize_by_keywords
    rw [runBest_fst_firstMax
      (fun cj => categoryKeywordScore cj.2 (combinedText company_data))
      PRODUCT_CATEGORIES i ci hget hpos hmax hfirst]
  · intro hall
    unfold categorize_by_keywords
    rw [runBest_fst_none
      (fun cj => categoryKeywordScore cj.2 (combinedText company_data))
      PRODUCT_CATEGORIES hall]

/-- Witness for C8 at a concrete record: the blob "olsen klær as" matches
only the Fashion keyword "klær" (summed length 4, all other categories score
0), so the Fashion category wins with the matched keyword listed. -/
theorem C8_categorize_by_keywords_witness :
    PRODUCT_CATEGORIES.get? 0 =
      some ("Fashion & Personal Accessories",
        { codes := ["14", "15.1", "32.1", "46.41", "46.42", "47.71",
                    "47.72", "47.77", "95.25"],
          keywords := ["klær", "clothing", "apparel", "fashion", "mote",
                       "sko", "shoes", "vesker", "bags", "smykker",
                       "jewelry", "klokker", "watches", "briller",
                       "eyewear", "accessories", "tilbehør"],
          subsegments := ["Apparel and Footwear", "Apparel",
                          "Childrenswear", "Footwear", "Sportswear",
                          "Eyewear", "Bags and Luggage", "Jewellery",
                          "Traditional and Connected Watches",
                          "Personal Accessories"] }) ∧
    categorize_by_keywords { navn := some ("Olsen Klær AS") } =
      ("Fashion & Personal Accessories", "keyword_match",
        "Keywords: klær") := by
  refine ⟨by decide, ?_⟩
  exact (C8_categorize_by_keywords { navn := some ("Olsen Klær AS") }).2.2.1 0
    ("Fashion & Personal Accessories",
      { codes := ["14", "15.1", "32.1", "46.41", "46.42", "47.71", "47.72",
                  "47.77", "95.25"],
        keywords := ["klær", "clothing", "apparel", "fashion", "mote",
                     "sko", "shoes", "vesker", "bags", "smykker", "jewelry",
                     "klokker", "watches", "briller", "eyewear",
                     "accessories", "tilbehør"],
        subsegments := ["Apparel and Footwear", "Apparel", "Childrenswear",
                        "Footwear", "Sportswear", "Eyewear",
                        "Bags and Luggage", "Jewellery",
                        "Traditional and Connected Watches",
                        "Personal Accessories"] })
    (by decide) (by decide) (by decide)
    (fun j hj cj _ => absurd hj (Nat.not_lt_zero j))

/-- The float constant 0.95 in its reducible form. -/
theorem mkRat_95 : (mkRat 95 100 : ℚ) = 0.95 := by
  norm_num [Rat.mkRat_eq_div]

/-- The float constant 0.9 in its reducible form. -/
theorem mkRat_09 : (mkRat 9 10 : ℚ) = 0.9 := by
  norm_num [Rat.mkRat_eq_div]

/-- The float constant 0.75 in its reducible form. -/
theorem mkRat_075 : (mkRat 75 100 : ℚ) = 0.75 := by
  norm_num [Rat.mkRat_eq_div]

/-- The float constant 0.6 in its reducible form. -/
theorem mkRat_06 : (mkRat 6 10 : ℚ) = 0.6 := by
  norm_num [Rat.mkRat_eq_div]

/-- The float constant 0.2 in its reducible form. -/
theorem mkRat_02 : (mkRat 2 10 : ℚ) = 0.2 := by
  norm_num [Rat.mkRat_eq_div]

/-- The float constant 0.1 in its reducible form. -/
theorem mkRat_01 : (mkRat 1 10 : ℚ) = 0.1 := by
  norm_num [Rat.mkRat_eq_div]

/-- The float constant 0.25 in its reducible form. -/
theorem mkRat_025 : (mkRat 25 100 : ℚ) = 0.25 := by
  norm_num [Rat.mkRat_eq_div]

/-- The float constant 0.10 in its reducible form. -/
theorem mkRat_010 : (mkRat 10 100 : ℚ) = 0.10 := by
  norm_num [Rat.mkRat_eq_div]

/-- The float constant 0.05 in its reducible form. -/
theorem mkRat_005 : (mkRat 5 100 : ℚ) = 0.05 := by
  norm_num [Rat.mkRat_eq_div]

/-- The float constant 0.02 in its reducible form. -/
theorem mkRat_002 : (mkRat 2 100 : ℚ) = 0.02 := by
  norm_num [Rat.mkRat_eq_div]

/-- The name-mismatch factor of the confidence adjustment (lines 246–249):
0.9 when the selected record name differs case-insensitively from the query
name, otherwise 1. -/
def mismatchFactor (company_name : String) (company_data : Company) : ℚ :=
  if pyLower (company_data.navn.getD ("Unknown")) ≠ pyLower company_name then
    0.9
  else 1

/-- The adjusted score is the raw outcome score times the mismatch factor. -/
theorem adjustedScore_eq_mul (company_name : String) (company_data : Company)
    (b : ℚ) (hb : (catOutcome company_data).confidence_score = b) :
    adjustedScore company_name company_data =
      b * mismatchFactor company_name company_data := by
  unfold adjustedScore mismatchFactor
  by_cases hm : pyLower (company_data.navn.getD ("Unknown")) ≠
      pyLower company_name
  · rw [if_pos hm, if_pos hm, hb, qmul_eq, mkRat_09]
  · rw [if_neg hm, if_neg hm, hb, mul_one]

/-- Reading `confidence_score` out of the found-branch result dict. -/
theorem pyGet_confidence_score (company_name : String)
    (company_data : Company) :
    pyGet (categorizeRecordPath company_name company_data)
      ("confidence_score") =
      some (PyVal.q (round3 (adjustedScore company_name company_data))) := rfl

/-- Reading `confidence` out of the found-branch result dict. -/
theorem pyGet_confidence (company_name : String) (company_data : Company) :
    pyGet (categorizeRecordPath company_name company_data) ("confidence") =
      some (PyVal.s (catOutcome company_data).confidence) := rfl

/-- Reading `exact_code_match` out of the found-branch result dict. -/
theorem pyGet_exact_code_match (company_name : String)
    (company_data : Company) :
    pyGet (categorizeRecordPath company_name company_data)
      ("exact_code_match") =
      some (PyVal.i (catOutcome company_data).exact_code_match) := rfl

/-- Reading `keyword_match` out of the found-branch result dict. -/
theorem pyGet_keyword_match (company_name : String)
    (company_data : Company) :
    pyGet (categorizeRecordPath company_name company_data)
      ("keyword_match") =
      some (PyVal.i (catOutcome company_data).keyword_match) := rfl

/-- Reading `categorized_by_naringskode` out of the found-branch result
dict. -/
theorem pyGet_categorized_by_naringskode (company_name : String)
    (company_data : Company) :
    pyGet (categorizeRecordPath company_name company_data)
      ("categorized_by_naringskode") =
      some (PyVal.i (catOutcome company_data).categorized_by_naringskode) :=
  rfl

/-- Reading `num_naringskoder` out of the found-branch result dict. -/
theorem pyGet_num_naringskoder (company_name : String)
    (company_data : Company) :
    pyGet (categorizeRecordPath company_name company_data)
      ("num_naringskoder") =
      some (PyVal.i ((extract_naringskoder company_data).length : Int)) := rfl

/-- Exhaustive case analysis of the categorization metrics: the four flag
patterns the code can produce, with their base confidence scores. -/
theorem catOutcome_cases (company_data : Company) :
    ((catOutcome company_data).categorized_by_naringskode = 1 ∧
      (catOutcome company_data).exact_code_match = 1 ∧
      (catOutcome company_data).keyword_match = 0 ∧
      (catOutcome company_data).confidence_score = mkRat 95 100) ∨
    ((catOutcome company_data).categorized_by_naringskode = 1 ∧
      (catOutcome company_data).exact_code_match = 0 ∧
      (catOutcome company_data).keyword_match = 1 ∧
      (catOutcome company_data).confidence_score = mkRat 75 100) ∨
    ((catOutcome company_data).categorized_by_naringskode = 0 ∧
      (catOutcome company_data).exact_code_match = 0 ∧
      (catOutcome company_data).keyword_match = 1 ∧
      ((catOutcome company_data).confidence_score = mkRat 6 10 ∨
        (catOutcome company_data).confidence_score = mkRat 5 10)) ∨
    ((catOutcome company_data).categorized_by_naringskode = 0 ∧
      (catOutcome company_data).exact_code_match = 0 ∧
      (catOutcome company_data).keyword_match = 0 ∧
      ((catOutcome company_data).confidence_score = mkRat 2 10 ∨
        (catOutcome company_data).confidence_score = mkRat 1 10)) := by
  unfold catOutcome
  dsimp only
  split_ifs <;> simp

/-- C5: the confidence scorer assigns base score 0.95/"High" for an exact
code-prefix match, 0.75/"High" for a keyword match inside a code
description, 0.6/"Medium" for a matched keyword fallback from a record with
industry codes (0.5/"Medium" without codes), and 0.2/"Low" for an unmatched
fallback with codes (0.1/"Low" without); the score is multiplied by exactly
0.9 when the selected record name differs case-insensitively from the query
(the label is unaffected), and the final score is rounded to 3 decimals. -/
theorem C5_confidence_scorer (company_name : String)
    (company_data : Company) :
    (extract_naringskoder company_data ≠ [] →
      (categorize_by_naringskode (extract_naringskoder company_data)).1 ≠
        "Uncategorized" →
      pySubstrIn ("(keyword:")
        (categorize_by_naringskode (extract_naringskoder company_data)).2.1 =
        false →
      pyGet (categorizeRecordPath company_name company_data)
        ("confidence_score") =
        some (PyVal.q (round3
          (0.95 * mismatchFactor company_name company_data))) ∧
      pyGet (categorizeRecordPath company_name company_data) ("confidence") =
        some (PyVal.s ("High"))) ∧
    (extract_naringskoder company_data ≠ [] →
      (categorize_by_naringskode (extract_naringskoder company_data)).1 ≠
        "Uncategorized" →
      pySubstrIn ("(keyword:")
        (categorize_by_naringskode (extract_naringskoder company_data)).2.1 =
        true →
      pyGet (categorizeRecordPath company_name company_data)
        ("confidence_score") =
        some (PyVal.q (round3
          (0.75 * mismatchFactor company_name company_data))) ∧
      pyGet (categorizeRecordPath company_name company_data) ("confidence") =
        some (PyVal.s ("High"))) ∧
    (extract_naringskoder company_data ≠ [] →
      (categorize_by_naringskode (extract_naringskoder company_data)).1 =
        "Uncategorized" →
      (categorize_by_keywords company_data).2.1 ≠ "no_match" →
      pyGet (categorizeRecordPath company_name company_data)
        ("confidence_score") =
        some (PyVal.q (round3
          (0.6 * mismatchFactor company_name company_data))) ∧
      pyGet (categorizeRecordPath company_name company_data) ("confidence") =
        some (PyVal.s ("Medium"))) ∧
    (extract_naringskoder company_data ≠ [] →
      (categorize_by_naringskode (extract_naringskoder company_data)).1 =
        "Uncategorized" →
      (categorize_by_keywords company_data).2.1 = "no_match" →
      pyGet (categorizeRecordPath company_name company_data)
        ("confidence_score") =
        some (PyVal.q (round3
          (0.2 * mismatchFactor company_name company_data))) ∧
      pyGet (categorizeRecordPath company_name company_data) ("confidence") =
        some (PyVal.s ("Low"))) ∧
    (extract_naringskoder company_data = [] →
      (categorize_by_keywords company_data).2.1 ≠ "no_match" →
      pyGet (categorizeRecordPath company_name company_data)
        ("confidence_score") =
        some (PyVal.q (round3
          (0.5 * mismatchFactor company_name company_data))) ∧
      pyGet (categorizeRecordPath company_name company_data) ("confidence") =
        some (PyVal.s ("Medium"))) ∧
    (extract_naringskoder company_data = [] →
      (categorize_by_keywords company_data).2.1 = "no_match" →
      pyGet (categorizeRecordPath company_name company_data)
        ("confidence_score") =
        some (PyVal.q (round3
          (0.1 * mismatchFactor company_name company_data))) ∧
      pyGet (categorizeRecordPath company_name company_data) ("confidence") =
        some (PyVal.s ("Low"))) := by
  refine ⟨?_, ?_, ?_, ?_, ?_, ?_⟩
  · intro h1 h2 h3
    have hb : (catOutcome company_data).confidence_score = mkRat 95 100 ∧
        (catOutcome company_data).confidence = "High" := by
      unfold catOutcome
      dsimp only
      rw [if_pos h1, if_pos h2, if_neg (by simp [h3])]
      simp
    refine ⟨?_, ?_⟩
    · rw [pyGet_confidence_score,
        adjustedScore_eq_mul company_name company_data _ hb.1, mkRat_95]
    · rw [pyGet_confidence, hb.2]
  · intro h1 h2 h3
    have hb : (catOutcome company_data).confidence_score = mkRat 75 100 ∧
        (catOutcome company_data).confidence = "High" := by
      unfold catOutcome
      dsimp only
      rw [if_pos h1, if_pos h2, if_pos h3]
      simp
    refine ⟨?_, ?_⟩
    · rw [pyGet_confidence_score,
        adjustedScore_eq_mul company_name company_data _ hb.1, mkRat_075]
    · rw [pyGet_confidence, hb.2]
  · intro h1 h2 h3
    have hb : (catOutcome company_data).confidence_score = mkRat 6 10 ∧
        (catOutcome company_data).confidence = "Medium" := by
      unfold catOutcome
      dsimp only
      rw [if_pos h1, if_neg (by simp [h2])]
      simp [h3]
    refine ⟨?_, ?_⟩
    · rw [pyGet_confidence_score,
        adjustedScore_eq_mul company_name company_data _ hb.1, mkRat_06]
    · rw [pyGet_confidence, hb.2]
  · intro h1 h2 h3
    have hb : (catOutcome company_data).confidence_score = mkRat 2 10 ∧
        (catOutcome company_data).confidence = "Low" := by
      unfold catOutcome
      dsimp only
      rw [if_pos h1, if_neg (by simp [h2])]
      simp [h3]
    refine ⟨?_, ?_⟩
    · rw [pyGet_confidence_score,
        adjustedScore_eq_mul company_name company_data _ hb.1, mkRat_02]
    · rw [pyGet_confidence, hb.2]
  · intro h1 h2
    have hb : (catOutcome company_data).confidence_score = mkRat 5 10 ∧
        (catOutcome company_data).confidence = "Medium" := by
      unfold catOutcome
      dsimp only
      rw [if_neg (by simp [h1])]
      simp [h2]
    refine ⟨?_, ?_⟩
    · rw [pyGet_confidence_score,
        adjustedScore_eq_mul company_name company_data _ hb.1, mkRat_half]
    · rw [pyGet_confidence, hb.2]
  · intro h1 h2
    have hb : (catOutcome company_data).confidence_score = mkRat 1 10 ∧
        (catOutcome company_data).confidence = "Low" := by
      unfold catOutcome
      dsimp only
      rw [if_neg (by simp [h1])]
      simp [h2]
    refine ⟨?_, ?_⟩
    · rw [pyGet_confidence_score,
        adjustedScore_eq_mul company_name company_data _ hb.1, mkRat_01]
    · rw [pyGet_confidence, hb.2]

/-- Witness for C5 at the exact-code-match path with a name mismatch (the
scenario of the spec): querying "Acme AS" but selecting "Acme Holding AS"
with code 47.71 gives confidence "High" and score 0.95 × 0.9 = 0.855. -/
theorem C5_confidence_scorer_witness :
    extract_naringskoder
      { navn := some ("Acme Holding AS"),
        naeringskode1 := some ⟨"47.71", "retail of clothing"⟩ } ≠ [] ∧
    (categorize_by_naringskode (extract_naringskoder
      { navn := some ("Acme Holding AS"),
        naeringskode1 := some ⟨"47.71", "retail of clothing"⟩ })).1 ≠
      "Uncategorized" ∧
    pyGet (categorizeRecordPath ("Acme AS")
      { navn := some ("Acme Holding AS"),
        naeringskode1 := some ⟨"47.71", "retail of clothing"⟩ })
      ("confidence_score") = some (PyVal.q (mkRat 855 1000)) ∧
    pyGet (categorizeRecordPath ("Acme AS")
      { navn := some ("Acme Holding AS"),
        naeringskode1 := some ⟨"47.71", "retail of clothing"⟩ })
      ("confidence") = some (PyVal.s ("High")) := by
  have h := (C5_confidence_scorer ("Acme AS")
    { navn := some ("Acme Holding AS"),
      naeringskode1 := some ⟨"47.71", "retail of clothing"⟩ }).1
    (by decide) (by decide) (by decide)
  refine ⟨by decide, by decide, ?_, h.2⟩
  have hmf : mismatchFactor ("Acme AS")
      { navn := some ("Acme Holding AS"),
        naeringskode1 := some ⟨"47.71", "retail of clothing"⟩ } = 0.9 := by
    unfold mismatchFactor
    rw [if_pos (by decide)]
  have hr : round3 ((0.95 : ℚ) * 0.9) = mkRat 855 1000 := by
    rw [show ((0.95 : ℚ) * 0.9) = qmul (mkRat 95 100) (mkRat 9 10) from by
      rw [qmul_eq, mkRat_95, mkRat_09]]
    decide
  rw [h.1, hmf, hr]

/-- Inverting the `confidence_score` entry of the found-branch result. -/
theorem confidence_score_value (company_name : String)
    (company_data : Company) (q : ℚ)
    (hq : pyGet (categorizeRecordPath company_name company_data)
      ("confidence_score") = some (PyVal.q q)) :
    q = round3 (adjustedScore company_name company_data) := by
  rw [pyGet_confidence_score] at hq
  simpa using hq.symm

/-- The adjusted score is either the 0.9-scaled or the raw base score. -/
theorem round3_adjusted_cases (company_name : String)
    (company_data : Company) (b : ℚ)
    (hb : (catOutcome company_data).confidence_score = b) :
    round3 (adjustedScore company_name company_data) =
      round3 (qmul b (mkRat 9 10)) ∨
    round3 (adjustedScore company_name company_data) = round3 b := by
  unfold adjustedScore
  by_cases hm : pyLower (company_data.navn.getD ("Unknown")) ≠
      pyLower company_name
  · left
    rw [if_pos hm, hb]
  · right
    rw [if_neg hm, hb]

/-- The four flag classes of a found-branch result together with the exact
set of rounded, possibly 0.9-adjusted confidence scores each can carry. -/
theorem confidence_score_class (company_name : String)
    (company_data : Company) (q : ℚ)
    (hq : pyGet (categorizeRecordPath company_name company_data)
      ("confidence_score") = some (PyVal.q q)) :
    ((catOutcome company_data).categorized_by_naringskode = 1 ∧
      (catOutcome company_data).exact_code_match = 1 ∧
      (catOutcome company_data).keyword_match = 0 ∧
      (q = mkRat 95 100 ∨ q = mkRat 855 1000)) ∨
    ((catOutcome company_data).categorized_by_naringskode = 1 ∧
      (catOutcome company_data).exact_code_match = 0 ∧
      (catOutcome company_data).keyword_match = 1 ∧
      (q = mkRat 75 100 ∨ q = mkRat 675 1000)) ∨
    ((catOutcome company_data).categorized_by_naringskode = 0 ∧
      (catOutcome company_data).exact_code_match = 0 ∧
      (catOutcome company_data).keyword_match = 1 ∧
      (q = mkRat 6 10 ∨ q = mkRat 54 100 ∨ q = mkRat 5 10 ∨
        q = mkRat 45 100)) ∨
    ((catOutcome company_data).categorized_by_naringskode = 0 ∧
      (catOutcome company_data).exact_code_match = 0 ∧
      (catOutcome company_data).keyword_match = 0 ∧
      (q = mkRat 2 10 ∨ q = mkRat 18 100 ∨ q = mkRat 1 10 ∨
        q = mkRat 9 100)) := by
  have hQ := confidence_score_value company_name company_data q hq
  rcases catOutcome_cases company_data with
    ⟨hc, he, hk, hb⟩ | ⟨hc, he, hk, hb⟩ | ⟨hc, he, hk, hb⟩ | ⟨hc, he, hk, hb⟩
  · refine Or.inl ⟨hc, he, hk, ?_⟩
    rcases round3_adjusted_cases company_name company_data _ hb with h | h
    · right
      rw [hQ, h]
      decide
    · left
      rw [hQ, h]
      decide
  · refine Or.inr (Or.inl ⟨hc, he, hk, ?_⟩)
    rcases round3_adjusted_cases company_name company_data _ hb with h | h
    · right
      rw [hQ, h]
      decide
    · left
      rw [hQ, h]
      decide
  · refine Or.inr (Or.inr (Or.inl ⟨hc, he, hk, ?_⟩))
    rcases hb with hb | hb <;>
      rcases round3_adjusted_cases company_name company_data _ hb with h | h
    · refine Or.inr (Or.inl ?_)
      rw [hQ, h]
      decide
    · refine Or.inl ?_
      rw [hQ, h]
      decide
    · refine Or.inr (Or.inr (Or.inr ?_))
      rw [hQ, h]
      decide
    · refine Or.inr (Or.inr (Or.inl ?_))
      rw [hQ, h]
      decide
  · refine Or.inr (Or.inr (Or.inr ⟨hc, he, hk, ?_⟩))
    rcases hb with hb | hb <;>
      rcases round3_adjusted_cases company_name company_data _ hb with h | h
    · refine Or.inr (Or.inl ?_)
      rw [hQ, h]
      decide
    · refine Or.inl ?_
      rw [hQ, h]
      decide
    · refine Or.inr (Or.inr (Or.inr ?_))
      rw [hQ, h]
      decide
    · refine Or.inr (Or.inr (Or.inl ?_))
      rw [hQ, h]
      decide

/-- C9: whenever a found-branch result has `categorized_by_naringskode = 1`,
exactly one of `exact_code_match` and `keyword_match` is 1; and across any
two results the confidence scores are strictly ordered: exact-code matches
above code-level keyword matches, above matched keyword-fallback results,
above no-match results (even across differing name-mismatch adjustments). -/
theorem C9_flags_and_score_ordering (n1 : String) (d1 : Company) :
    (pyGet (categorizeRecordPath n1 d1) ("categorized_by_naringskode") =
        some (PyVal.i 1) →
      ((pyGet (categorizeRecordPath n1 d1) ("exact_code_match") =
          some (PyVal.i 1) ∧
        pyGet (categorizeRecordPath n1 d1) ("keyword_match") =
          some (PyVal.i 0)) ∨
       (pyGet (categorizeRecordPath n1 d1) ("exact_code_match") =
          some (PyVal.i 0) ∧
        pyGet (categorizeRecordPath n1 d1) ("keyword_match") =
          some (PyVal.i 1)))) ∧
    (∀ (n2 : String) (d2 : Company) (q1 q2 : ℚ),
      pyGet (categorizeRecordPath n1 d1) ("confidence_score") =
        some (PyVal.q q1) →
      pyGet (categorizeRecordPath n2 d2) ("confidence_score") =
        some (PyVal.q q2) →
      ((pyGet (categorizeRecordPath n1 d1) ("exact_code_match") =
          some (PyVal.i 1) →
        pyGet (categorizeRecordPath n2 d2) ("categorized_by_naringskode") =
          some (PyVal.i 1) →
        pyGet (categorizeRecordPath n2 d2) ("keyword_match") =
          some (PyVal.i 1) →
        q2 < q1) ∧
       (pyGet (categorizeRecordPath n1 d1) ("categorized_by_naringskode") =
          some (PyVal.i 1) →
        pyGet (categorizeRecordPath n1 d1) ("keyword_match") =
          some (PyVal.i 1) →
        pyGet (categorizeRecordPath n2 d2) ("categorized_by_naringskode") =
          some (PyVal.i 0) →
        pyGet (categorizeRecordPath n2 d2) ("keyword_match") =
          some (PyVal.i 1) →
        q2 < q1) ∧
       (pyGet (categorizeRecordPath n1 d1) ("categorized_by_naringskode") =
          some (PyVal.i 0) →
        pyGet (categorizeRecordPath n1 d1) ("keyword_match") =
          some (PyVal.i 1) →
        pyGet (categorizeRecordPath n2 d2) ("categorized_by_naringskode") =
          some (PyVal.i 0) →
        pyGet (categorizeRecordPath n2 d2) ("keyword_match") =
          some (PyVal.i 0) →
        q2 < q1))) := by
  constructor
  · intro h
    rw [pyGet_categorized_by_naringskode] at h
    have hc1 : (catOutcome d1).categorized_by_naringskode = 1 := by
      simpa using h
    rcases catOutcome_cases d1 with
      ⟨hc, he, hk, _⟩ | ⟨hc, he, hk, _⟩ | ⟨hc, he, hk, _⟩ | ⟨hc, he, hk, _⟩
    · left
      rw [pyGet_exact_code_match, pyGet_keyword_match, he, hk]
      exact ⟨rfl, rfl⟩
    · right
      rw [pyGet_exact_code_match, pyGet_keyword_match, he, hk]
      exact ⟨rfl, rfl⟩
    · exact absurd (hc.symm.trans hc1) (by decide)
    · exact absurd (hc.symm.trans hc1) (by decide)
  · intro n2 d2 q1 q2 hq1 hq2
    refine ⟨?_, ?_, ?_⟩
    · intro hE1 hC2 hK2
      rw [pyGet_exact_code_match] at hE1
      rw [pyGet_categorized_by_naringskode] at hC2
      rw [pyGet_keyword_match] at hK2
      have hE1' : (catOutcome d1).exact_code_match = 1 := by simpa using hE1
      have hC2' : (catOutcome d2).categorized_by_naringskode = 1 := by
        simpa using hC2
      have hK2' : (catOutcome d2).keyword_match = 1 := by simpa using hK2
      rcases confidence_score_class n1 d1 q1 hq1 with
        ⟨_, _, _, hv1⟩ | ⟨_, he, _, _⟩ | ⟨_, he, _, _⟩ | ⟨_, he, _, _⟩
      · rcases confidence_score_class n2 d2 q2 hq2 with
          ⟨_, _, hk, _⟩ | ⟨_, _, _, hv2⟩ | ⟨hc, _, _, _⟩ | ⟨hc, _, _, _⟩
        · exact absurd (hk.symm.trans hK2') (by decide)
        · rcases hv1 with rfl | rfl <;> rcases hv2 with rfl | rfl <;> decide
        · exact absurd (hc.symm.trans hC2') (by decide)
        · exact absurd (hc.symm.trans hC2') (by decide)
      · exact absurd (he.symm.trans hE1') (by decide)
      · exact absurd (he.symm.trans hE1') (by decide)
      · exact absurd (he.symm.trans hE1') (by decide)
    · intro hC1 hK1 hC2 hK2
      rw [pyGet_categorized_by_naringskode] at hC1 hC2
      rw [pyGet_keyword_match] at hK1 hK2
      have hC1' : (catOutcome d1).categorized_by_naringskode = 1 := by
        simpa using hC1
      have hK1' : (catOutcome d1).keyword_match = 1 := by simpa using hK1
      have hC2' : (catOutcome d2).categorized_by_naringskode = 0 := by
        simpa using hC2
      have hK2' : (catOutcome d2).keyword_match = 1 := by simpa using hK2
      rcases confidence_score_class n1 d1 q1 hq1 with
        ⟨_, _, hk, _⟩ | ⟨_, _, _, hv1⟩ | ⟨hc, _, _, _⟩ | ⟨hc, _, _, _⟩
      · exact absurd (hk.symm.trans hK1') (by decide)
      · rcases confidence_score_class n2 d2 q2 hq2 with
          ⟨hc, _, _, _⟩ | ⟨hc, _, _, _⟩ | ⟨_, _, _, hv2⟩ | ⟨_, _, hk, _⟩
        · exact absurd (hc.symm.trans hC2') (by decide)
        · exact absurd (hc.symm.trans hC2') (by decide)
        · rcases hv1 with rfl | rfl <;>
            rcases hv2 with rfl | rfl | rfl | rfl <;> decide
        · exact absurd (hk.symm.trans hK2') (by decide)
      · exact absurd (hc.symm.trans hC1') (by decide)
      · exact absurd (hc.symm.trans hC1') (by decide)
    · intro hC1 hK1 hC2 hK2
      rw [pyGet_categorized_by_naringskode] at hC1 hC2
      rw [pyGet_keyword_match] at hK1 hK2
      have hC1' : (catOutcome d1).categorized_by_naringskode = 0 := by
        simpa using hC1
      have hK1' : (catOutcome d1).keyword_match = 1 := by simpa using hK1
      have hC2' : (catOutcome d2).categorized_by_naringskode = 0 := by
        simpa using hC2
      have hK2' : (catOutcome d2).keyword_match = 0 := by simpa using hK2
      rcases confidence_score_class n1 d1 q1 hq1 with
        ⟨hc, _, _, _⟩ | ⟨hc, _, _, _⟩ | ⟨_, _, _, hv1⟩ | ⟨_, _, hk, _⟩
      · exact absurd (hc.symm.trans hC1') (by decide)
      · exact absurd (hc.symm.trans hC1') (by decide)
      · rcases confidence_score_class n2 d2 q2 hq2 with
          ⟨hc, _, _, _⟩ | ⟨hc, _, _, _⟩ | ⟨_, _, hk, _⟩ | ⟨_, _, _, hv2⟩
        · exact absurd (hc.symm.trans hC2') (by decide)
        · exact absurd (hc.symm.trans hC2') (by decide)
        · exact absurd (hk.symm.trans hK2') (by decide)
        · rcases hv1 with rfl | rfl | rfl | rfl <;>
            rcases hv2 with rfl | rfl | rfl | rfl <;> decide
      · exact absurd (hk.symm.trans hK1') (by decide)

/-- Witness for C9: a record matched by exact code 47.71 (score 0.95, same
name, flags 1/1/0) against a record matched by the keyword "klær" inside the
description of the non-matching code 13.1 (score 0.75, flags 1/0/1): exactly
one sub-flag is set in each and 0.75 < 0.95. -/
theorem C9_flags_and_score_ordering_witness :
    pyGet (categorizeRecordPath ("Zzz")
      { navn := some ("Zzz"), naeringskode1 := some ⟨"13.1", "klær"⟩ })
      ("categorized_by_naringskode") = some (PyVal.i 1) ∧
    pyGet (categorizeRecordPath ("Zzz")
      { navn := some ("Zzz"), naeringskode1 := some ⟨"13.1", "klær"⟩ })
      ("exact_code_match") = some (PyVal.i 0) ∧
    pyGet (categorizeRecordPath ("Zzz")
      { navn := some ("Zzz"), naeringskode1 := some ⟨"13.1", "klær"⟩ })
      ("keyword_match") = some (PyVal.i 1) ∧
    pyGet (categorizeRecordPath ("Zzz")
      { navn := some ("Zzz"), naeringskode1 := some ⟨"47.71", ""⟩ })
      ("confidence_score") = some (PyVal.q (mkRat 95 100)) ∧
    pyGet (categorizeRecordPath ("Zzz")
      { navn := some ("Zzz"), naeringskode1 := some ⟨"13.1", "klær"⟩ })
      ("confidence_score") = some (PyVal.q (mkRat 75 100)) ∧
    (mkRat 75 100 : ℚ) < mkRat 95 100 := by
  have hA := (C9_flags_and_score_ordering ("Zzz")
    { navn := some ("Zzz"), naeringskode1 := some ⟨"13.1", "klær"⟩ }).1
    (by decide)
  have hB := ((C9_flags_and_score_ordering ("Zzz")
    { navn := some ("Zzz"), naeringskode1 := some ⟨"47.71", ""⟩ }).2
    ("Zzz") { navn := some ("Zzz"), naeringskode1 := some ⟨"13.1", "klær"⟩ }
    (mkRat 95 100) (mkRat 75 100) (by decide) (by decide)).1
    (by decide) (by decide) (by decide)
  rcases hA with h | h
  · exact absurd h.1 (by decide)
  · exact ⟨by decide, h.1, h.2, by decide, by decide, hB⟩

/-- C10: a record whose naeringskode slots are present but all carry an
empty `kode` is classified by the selector helper `has_naringskoder` as
having NO industry codes, while the orchestrator helper
`extract_naringskoder` still returns the slots, so `num_naringskoder` is
positive and the code-based branch runs; if such a record then matches
nothing (code categorizer uncategorized, keyword fallback no match, name
equal to the query), its confidence score is the has-codes fallback value
0.2, not the no-codes value 0.1. -/
theorem C10_empty_kode_slots (company_name : String)
    (company_data : Company)
    (hne : extract_naringskoder company_data ≠ [])
    (hkode : ∀ nk ∈ extract_naringskoder company_data, nk.kode = "")
    (hnk : (categorize_by_naringskode
      (extract_naringskoder company_data)).1 = "Uncategorized")
    (hkw : (categorize_by_keywords company_data).2.1 = "no_match")
    (hname : pyLower (company_data.navn.getD ("Unknown")) =
      pyLower company_name) :
    has_naringskoder company_data = false ∧
    pyGet (categorizeRecordPath company_name company_data)
      ("num_naringskoder") =
      some (PyVal.i ((extract_naringskoder company_data).length : Int)) ∧
    0 < (extract_naringskoder company_data).length ∧
    pyGet (categorizeRecordPath company_name company_data)
      ("confidence_score") = some (PyVal.q (mkRat 2 10)) ∧
    (mkRat 2 10 : ℚ) ≠ mkRat 1 10 := by
  refine ⟨?_, pyGet_num_naringskoder company_name company_data,
    List.length_pos.mpr hne, ?_, by decide⟩
  · cases h1 : company_data.naeringskode1 <;>
      cases h2 : company_data.naeringskode2 <;>
      cases h3 : company_data.naeringskode3 <;>
      simp_all [has_naringskoder, extract_naringskoder]
  · have hb : (catOutcome company_data).confidence_score = mkRat 2 10 := by
      unfold catOutcome
      dsimp only
      rw [if_pos hne, if_neg (by simp [hnk])]
      simp [hkw]
    have hadj : round3 (adjustedScore company_name company_data) =
        mkRat 2 10 := by
      unfold adjustedScore
      rw [if_neg (by simp [hname]), hb]
      decide
    rw [pyGet_confidence_score, hadj]

set_option maxRecDepth 4000 in
/-- Witness for C10: one naeringskode slot present as a dict with empty
`kode`, matching nothing: `has_naringskoder` says false, yet the slot is
extracted (num = 1) and the score is the has-codes fallback 0.2. -/
theorem C10_empty_kode_slots_witness :
    extract_naringskoder
      { navn := some ("Zzz"), naeringskode1 := some ⟨"", "qqq"⟩ } ≠ [] ∧
    has_naringskoder
      { navn := some ("Zzz"), naeringskode1 := some ⟨"", "qqq"⟩ } = false ∧
    pyGet (categorizeRecordPath ("Zzz")
      { navn := some ("Zzz"), naeringskode1 := some ⟨"", "qqq"⟩ })
      ("num_naringskoder") = some (PyVal.i 1) ∧
    pyGet (categorizeRecordPath ("Zzz")
      { navn := some ("Zzz"), naeringskode1 := some ⟨"", "qqq"⟩ })
      ("confidence_score") = some (PyVal.q (mkRat 2 10)) := by
  have h := C10_empty_kode_slots ("Zzz")
    { navn := some ("Zzz"), naeringskode1 := some ⟨"", "qqq"⟩ }
    (by decide) (by decide) (by decide) (by decide) (by decide)
  exact ⟨by decide, h.1, by decide, h.2.2.2.1⟩

/-- C7: the relevance score is 0.6 × name-similarity, +0.25 when active,
+0.10 for activity/statutory text, +0.05 for the main legal forms and −0.02
for foreign branches; the scored group is sorted by descending score (a
stable permutation of the scored candidates); when more than one candidate
lies within 0.10 of the best score and the scored group is the two-or-more
coded candidates, the first close match that is active is selected (the
top-scored one when none is); in the no-codes fallback group the top-scored
candidate is always kept. -/
theorem C7_relevance_and_selection (companies : List Company)
    (search_name : String) :
    (∀ c : Company, get_company_relevance_score c search_name =
      0.6 * similarity_score search_name (c.navn.getD ("")) +
      (if is_company_active c then 0.25 else 0) +
      (if c.aktivitet ≠ [] ∨ c.vedtektsfestetFormaal ≠ [] then 0.10
        else 0) +
      (if c.organisasjonsform.getD ("") ∈
          (["AS", "ASA", "ENK", "DA", "BA", "SA"] : List String) then
        (0.05 : ℚ)
      else if c.organisasjonsform.getD ("") ∈
          (["NUF", "FIL"] : List String) then -0.02
      else 0)) ∧
    (∀ l : List Company,
      (scoredSorted l search_name).Sorted (fun x y => y.1 ≤ x.1) ∧
      (scoredSorted l search_name).Perm
        (l.map (fun c => (get_company_relevance_score c search_name, c)))) ∧
    (2 ≤ (companies.filter has_naringskoder).length →
      ∀ (b : ℚ × Company) (rest : List (ℚ × Company)),
      scoredSorted (companies.filter has_naringskoder) search_name =
        b :: rest →
      select_best_company_match companies search_name =
        some (if 1 < ((b :: rest).filter
            (fun sc => decide (absQ (qsub sc.1 b.1) ≤ mkRat 1 10))).length
          then
            ((((b :: rest).filter
              (fun sc => decide (absQ (qsub sc.1 b.1) ≤ mkRat 1 10))).filter
              (fun sc => is_company_active sc.2)).headD b).2
          else b.2)) ∧
    (companies.filter has_naringskoder = [] → 2 ≤ companies.length →
      ∀ (b : ℚ × Company) (rest : List (ℚ × Company)),
      scoredSorted companies search_name = b :: rest →
      select_best_company_match companies search_name = some b.2) := by
  refine ⟨?_, ?_, ?_, ?_⟩
  · intro c
    unfold get_company_relevance_score
    dsimp only
    split_ifs <;>
      simp only [qadd_eq, qsub_eq, qmul_eq, mkRat_06, mkRat_025, mkRat_010,
        mkRat_005, mkRat_002] <;>
      ring
  · intro l
    haveI ht : IsTotal (ℚ × Company) (fun x y => y.1 ≤ x.1) :=
      ⟨fun a b => le_total b.1 a.1⟩
    haveI htr : IsTrans (ℚ × Company) (fun x y => y.1 ≤ x.1) :=
      ⟨fun a b c hab hbc => le_trans hbc hab⟩
    exact ⟨List.sorted_insertionSort _ _, List.perm_insertionSort _ _⟩
  · intro h2 b rest hscored
    have hlenc : 2 ≤ companies.length :=
      le_trans h2 (List.length_filter_le _ _)
    unfold select_best_company_match
    rw [if_neg (by intro h; rw [h] at hlenc; simp at hlenc),
      if_neg (by omega)]
    dsimp only
    rw [if_neg (by omega), if_pos (by omega : 1 <
      (companies.filter has_naringskoder).length), hscored]
    dsimp only
    by_cases hc : 1 < ((b :: rest).filter
        (fun sc => decide (absQ (qsub sc.1 b.1) ≤ mkRat 1 10))).length
    · rw [if_pos hc, if_pos hc, if_pos (by omega : 1 <
        (companies.filter has_naringskoder).length)]
      cases hm : ((b :: rest).filter
          (fun sc => decide (absQ (qsub sc.1 b.1) ≤ mkRat 1 10))).filter
          (fun sc => is_company_active sc.2) with
      | nil => rfl
      | cons a t => rfl
    · rw [if_neg hc, if_neg hc]
  · intro h0 hlen b rest hscored
    unfold select_best_company_match
    rw [if_neg (by intro h; rw [h] at hlen; simp at hlen),
      if_neg (by omega)]
    dsimp only
    rw [if_neg (by rw [h0]; simp), if_neg (by rw [h0]; simp), hscored]
    dsimp only
    by_cases hc : 1 < ((b :: rest).filter
        (fun sc => decide (absQ (qsub sc.1 b.1) ≤ mkRat 1 10))).length
    · rw [if_pos hc, if_neg (by rw [h0]; simp)]
    · rw [if_neg hc]

/-- The top-scored candidate of the C7 witness: inactive (bankrupt), but
exact name match, with activity text and AS form — score 0.75. -/
def c7T : Company :=
  { navn := some ("abcd"), naeringskode1 := some ⟨"13.1", ""⟩,
    aktivitet := ["x"], organisasjonsform := some ("AS"), konkurs := true }

/-- The runner-up candidate of the C7 witness: active with name similarity
0.75 — score 0.70, within 0.10 of the best. -/
def c7S : Company :=
  { navn := some ("abce"), naeringskode1 := some ⟨"13.1", ""⟩ }

/-- Witness for C7: both candidates are coded, their scores 0.75 and 0.70
are close, the top one is inactive, so the tie-break picks the first active
close match — the lower-scored `c7S`. -/
theorem C7_relevance_and_selection_witness :
    2 ≤ ([c7T, c7S].filter has_naringskoder).length ∧
    scoredSorted ([c7T, c7S].filter has_naringskoder) ("abcd") =
      (mkRat 3 4, c7T) :: [(mkRat 7 10, c7S)] ∧
    is_company_active c7T = false ∧
    is_company_active c7S = true ∧
    select_best_company_match [c7T, c7S] ("abcd") = some c7S := by
  have h := (C7_relevance_and_selection [c7T, c7S] ("abcd")).2.2.1
    (by decide) (mkRat 3 4, c7T) [(mkRat 7 10, c7S)] (by decide)
  refine ⟨by decide, by decide, by decide, by decide, ?_⟩
  rw [h]
  decide
